import Mathlib

/-!
Verification of the ArcPy PCI quality-control script (src/main.py).

The script joins road-segment features to a pavement-inspection table by a
composite street/section key, computes the signed PCI delta per matched
record, classifies each record against two operator-supplied thresholds,
and materializes flagged outputs plus midpoint shapefiles.

This file shallowly embeds the parts of the script the verified properties
are about:

* threshold input parsing (src/main.py lines 27-37),
* the per-record delta computation and threshold classification
  (lines 661-704 of analyze_pci_differences),
* the whole matching loop, modelled as a fold over an explicit run state,
  with Python exceptions modelled as Except (the only exception handler
  inside analyze_pci_differences is the whole-function one at line 986),
* the midpoint-strategy selection loop of create_midpoint_shapefile
  (lines 122-222),
* key construction (line 648, and line 489 of
  create_output_shapefile_with_table_fields),
* the shapefile field-adding loop with 10-character truncation
  (lines 431-441 together with create_field_mapping, lines 90-96).

Nullable values are Option, Python str values are String, PCI readings are
nullable rationals (the table stores reals), thresholds are Int (the
script parses them with int()).
-/

/- ------------------------------------------------------------------ -/
/- Generic helpers                                                     -/
/- ------------------------------------------------------------------ -/

/-- First-match lookup in an association list; models Python dict lookup
when insertions cons the newest binding at the front. -/
def lookup_assoc {κ α : Type} [DecidableEq κ] : List (κ × α) → κ → Option α
  | [], _ => none
  | (k, v) :: rest, key => if k = key then some v else lookup_assoc rest key

/-- Model of Python str.upper for the ASCII field names the script uses. -/
def py_upper (s : String) : String := ⟨s.data.map Char.toUpper⟩

/-- Leading and trailing whitespace removal over a character list; models
the whitespace stripping Python int() performs on its string argument. -/
def strip_ws (cs : List Char) : List Char :=
  ((cs.dropWhile Char.isWhitespace).reverse.dropWhile Char.isWhitespace).reverse

/- ------------------------------------------------------------------ -/
/- Threshold input parsing, src/main.py lines 27-37                    -/
/- ------------------------------------------------------------------ -/

/-- Nonempty all-decimal-digit character list read as a Nat. -/
def py_nat_digits (cs : List Char) : Option Nat :=
  if !cs.isEmpty && cs.all Char.isDigit then
    some (cs.foldl (fun n c => 10 * n + (c.toNat - 48)) 0)
  else none

/-- Model of Python int(str): surrounding whitespace stripped, an optional
single sign, then one or more decimal digits; every other string raises
ValueError, modelled as none.  (Python additionally accepts underscore
digit separators; no claim depends on them.) -/
def py_int (s : String) : Option Int :=
  match strip_ws s.data with
  | [] => none
  | '-' :: rest => (py_nat_digits rest).map (fun n => -(n : Int))
  | '+' :: rest => (py_nat_digits rest).map (fun n => (n : Int))
  | cs => (py_nat_digits cs).map (fun n => (n : Int))

/-- src/main.py lines 31-37: both inputs are converted with int() inside a
single try block; on ValueError the handler assigns the defaults -10 and
10 to both thresholds. -/
def parse_thresholds (lower_raw higher_raw : String) : Int × Int :=
  match py_int lower_raw with
  | none => (-10, 10)
  | some lo =>
    match py_int higher_raw with
    | none => (-10, 10)
    | some hi => (lo, hi)

/- ------------------------------------------------------------------ -/
/- Delta and classification, src/main.py lines 669-691                 -/
/- ------------------------------------------------------------------ -/

/-- src/main.py line 670: pci_diff = last_pci - prev_pci. -/
def pci_diff (last_pci prev_pci : ℚ) : ℚ := last_pci - prev_pci

/-- The four flag outcomes of the matching loop: BELOW LOWER THRESHOLD,
ABOVE HIGHER THRESHOLD, OK, MISSING DATA (src/main.py lines 678-691). -/
inductive Classification where
  | BelowLower
  | AboveHigher
  | Unflagged
  | MissingData
deriving DecidableEq

/-- src/main.py lines 669-691: a record with a null PCI on either side is
flagged MISSING DATA; otherwise pci_diff <= lower_thresh is checked first,
then pci_diff >= higher_thresh, else OK. -/
def classify_record (lower_thresh higher_thresh : Int) (last_pci prev_pci : Option ℚ) :
    Classification :=
  match last_pci, prev_pci with
  | some l, some p =>
    if pci_diff l p ≤ (lower_thresh : ℚ) then .BelowLower
    else if pci_diff l p ≥ (higher_thresh : ℚ) then .AboveHigher
    else .Unflagged
  | _, _ => .MissingData

/- ------------------------------------------------------------------ -/
/- Key construction, src/main.py lines 647-649 and 489                 -/
/- ------------------------------------------------------------------ -/

/-- Python str() of a nullable string value: None prints as "None".  This
is what an f-string interpolation does with a null attribute. -/
def py_str : Option String → String
  | none => "None"
  | some s => s

/-- src/main.py line 648: key = f-string of street_id, " - ", section_id;
no trimming is applied to either component. -/
def normalize_key (street_id section_id : Option String) : String :=
  py_str street_id ++ " - " ++ py_str section_id

/-- src/main.py lines 661-666: the pre-combined StreetSec attribute of a
segment is used verbatim as the lookup key. -/
def normalize_key_combined (street_sec : String) : String := street_sec

/-- Modelled from the spec: the canonical two-part key form the spec
states, trim(streetId) ++ " - " ++ trim(sectionId); the trimming is the
spec's wording, not the code's, and this definition exists only to be
compared against normalize_key. -/
def canonical_key_spec (street_id section_id : String) : String :=
  String.mk (strip_ws street_id.data) ++ " - " ++ String.mk (strip_ws section_id.data)

/- ------------------------------------------------------------------ -/
/- The matching loop of analyze_pci_differences, lines 640-704         -/
/- ------------------------------------------------------------------ -/

/-- One row of the inspection table as read by the cursor at line 643:
Street_ID, Section_ID, Last_Insp_PCI, Prev_Insp_PCI, OBJECTID,
Street_Name.  All attribute values are nullable. -/
structure TableRow where
  street_id : Option String
  section_id : Option String
  last_pci : Option ℚ
  prev_pci : Option ℚ
  oid : Nat
  street_name : Option String
deriving DecidableEq

/-- One entry of table_dict's per-key list (line 649): the tuple
last_pci, prev_pci, table OID, street name. -/
structure TableRec where
  last_pci : Option ℚ
  prev_pci : Option ℚ
  tbl_oid : Nat
  street_name : Option String
deriving DecidableEq

/-- The mutable state of the matching loop (lines 652-659): the count of
all_results entries, the three flagged-OID lists, pci_diff_dict and
street_section_mapping (dicts modelled as newest-first association
lists). -/
structure RunState where
  all_results : Nat
  lower_oids : List Nat
  higher_oids : List Nat
  all_flagged_oids : List Nat
  pci_diff_dict : List (Nat × ℚ × String)
  street_section_mapping : List (Nat × String)
deriving DecidableEq

/-- The empty state the loop starts from (lines 652-659). -/
def init_state : RunState := ⟨0, [], [], [], [], []⟩

/-- The TypeError Python raises at line 673 when street_name is None and
len is applied to it. -/
def py_len_none_msg : String := "TypeError: len of None"

/-- src/main.py lines 672-673: street_name truncated to 10 characters for
shapefile compatibility. -/
def short_street_name (s : String) : String :=
  if s.length > 10 then s.take 10 else s

/-- src/main.py lines 667-704, the body run for ONE record of
table_dict's list for the segment's key: a record with a null PCI on
either side only appends an all_results entry (MISSING DATA); a record
with both PCIs non-null evaluates len(street_name) - raising TypeError
when the name is null - then writes pci_diff_dict for this feature,
appends the feature OID to the lower/higher and combined flag lists
according to the thresholds, and appends an all_results entry. -/
def rec_step (lower_thresh higher_thresh : Int) (shp_oid : Nat)
    (st : RunState) (r : TableRec) : Except String RunState :=
  match r.last_pci, r.prev_pci with
  | some l, some p =>
    match r.street_name with
    | none => .error py_len_none_msg
    | some name =>
      let d := pci_diff l p
      let short := short_street_name name
      let st1 := { st with pci_diff_dict := (shp_oid, d, short) :: st.pci_diff_dict }
      let st2 :=
        if d ≤ (lower_thresh : ℚ) then
          { st1 with lower_oids := st1.lower_oids ++ [shp_oid],
                     all_flagged_oids := st1.all_flagged_oids ++ [shp_oid] }
        else if d ≥ (higher_thresh : ℚ) then
          { st1 with higher_oids := st1.higher_oids ++ [shp_oid],
                     all_flagged_oids := st1.all_flagged_oids ++ [shp_oid] }
        else st1
      .ok { st2 with all_results := st2.all_results + 1 }
  | _, _ => .ok { st with all_results := st.all_results + 1 }

/-- table_dict.setdefault(key, []).append(entry), line 649: the entry is
appended to the key's list, preserving table iteration order. -/
def append_assoc (d : List (String × List TableRec)) (k : String) (r : TableRec) :
    List (String × List TableRec) :=
  match d with
  | [] => [(k, [r])]
  | (k', rs) :: rest =>
    if k' = k then (k', rs ++ [r]) :: rest else (k', rs) :: append_assoc rest k r

/-- The tuple stored in table_dict for one table row (line 649). -/
def to_table_rec (row : TableRow) : TableRec :=
  ⟨row.last_pci, row.prev_pci, row.oid, row.street_name⟩

/-- src/main.py lines 641-649: one pass over the inspection table builds
table_dict, keyed by the f-string of Street_ID and Section_ID. -/
def build_table_dict (rows : List TableRow) : List (String × List TableRec) :=
  rows.foldl
    (fun d row => append_assoc d (normalize_key row.street_id row.section_id) (to_table_rec row))
    []

/-- src/main.py lines 661-704, the body run for ONE segment feature
(StreetSec value and FID): street_section_mapping is written first (line
664); when StreetSec is a key of table_dict, every record of its list is
processed in order by rec_step; a segment whose key is absent does
nothing else. -/
def seg_step (lower_thresh higher_thresh : Int) (tbl : List (String × List TableRec))
    (st : RunState) (seg : String × Nat) : Except String RunState :=
  let st0 := { st with street_section_mapping := (seg.2, seg.1) :: st.street_section_mapping }
  match lookup_assoc tbl seg.1 with
  | some recs => List.foldlM (rec_step lower_thresh higher_thresh seg.2) st0 recs
  | none => .ok st0

/-- The matching phase of analyze_pci_differences (lines 640-704): build
table_dict from the table rows, then fold over the segment features.  An
uncaught record-level exception aborts the fold; in the script it is
caught only by the whole-function handler at line 986, which logs and
returns without producing any output. -/
def analyze_run (lower_thresh higher_thresh : Int) (rows : List TableRow)
    (segs : List (String × Nat)) : Except String RunState :=
  List.foldlM (seg_step lower_thresh higher_thresh (build_table_dict rows)) init_state segs

/- ------------------------------------------------------------------ -/
/- Record bookkeeping predicates (used to state what the loop does)    -/
/- ------------------------------------------------------------------ -/

/-- The delta of one table record, when both PCI values are present. -/
def rec_delta (r : TableRec) : Option ℚ :=
  match r.last_pci, r.prev_pci with
  | some l, some p => some (pci_diff l p)
  | _, _ => none

/-- Whether a record carries both PCI values. -/
def has_pci_pair (r : TableRec) : Bool := r.last_pci.isSome && r.prev_pci.isSome

/-- Whether the loop appends the feature to lower_oids for this record. -/
def flags_lower (lower_thresh : Int) (r : TableRec) : Bool :=
  match rec_delta r with
  | some d => decide (d ≤ (lower_thresh : ℚ))
  | none => false

/-- Whether the loop appends the feature to higher_oids for this record
(the lower test is checked first and wins). -/
def flags_higher (lower_thresh higher_thresh : Int) (r : TableRec) : Bool :=
  match rec_delta r with
  | some d => !(decide (d ≤ (lower_thresh : ℚ))) && decide (d ≥ (higher_thresh : ℚ))
  | none => false

/-- The pci_diff_dict entry left for a feature after its record list is
processed: the delta and truncated street name of the LAST record with
both PCI values, since each such record overwrites the entry. -/
def last_dict_entry : List TableRec → Option (ℚ × String)
  | [] => none
  | r :: rs =>
    match last_dict_entry rs with
    | some e => some e
    | none =>
      match rec_delta r, r.street_name with
      | some d, some name => some (d, short_street_name name)
      | _, _ => none

/- ------------------------------------------------------------------ -/
/- Midpoint strategy selection, create_midpoint_shapefile 122-222      -/
/- ------------------------------------------------------------------ -/

/-- The two midpoint strategies of create_midpoint_shapefile, in the
order of methods_to_try (src/main.py lines 122-125): FeatureToPoint with
the CENTROID option first, the manual positionAlongLine(length / 2)
computation second. -/
inductive MidpointMethod where
  | feature_to_point
  | manual
deriving DecidableEq

/-- src/main.py lines 122-125: methods_to_try, in source order. -/
def methods_to_try : List MidpointMethod := [.feature_to_point, .manual]

/-- The environment a midpoint batch runs in: the outcome of the
FeatureToPoint capability (none models the call raising, some c the
number of points it produced) and the input line geometries, each as a
nullable length (none models an invalid geometry object). -/
structure MidpointEnv where
  feature_to_point_count : Option Nat
  geometries : List (Option ℚ)
deriving DecidableEq

/-- src/main.py lines 183-209: the manual method walks the input features
and creates one midpoint per geometry that is non-null with positive
length, via positionAlongLine(geometry.length / 2). -/
def manual_count (env : MidpointEnv) : Nat :=
  env.geometries.countP (fun g =>
    match g with
    | some len => decide (0 < len)
    | none => false)

/-- src/main.py lines 130-217, one iteration of the method loop: once a
method has succeeded later methods are skipped (the break on success);
feature_to_point succeeds when the capability returns a positive count;
manual succeeds when it creates a positive number of points. -/
def mid_step (env : MidpointEnv) (st : Option (MidpointMethod × Nat)) (m : MidpointMethod) :
    Option (MidpointMethod × Nat) :=
  match st with
  | some r => some r
  | none =>
    match m with
    | .feature_to_point =>
      match env.feature_to_point_count with
      | some c => if 0 < c then some (.feature_to_point, c) else none
      | none => none
    | .manual =>
      if 0 < manual_count env then some (.manual, manual_count env) else none

/-- The whole strategy loop (lines 130-222): the first succeeding method
of methods_to_try, or none, in which case the function prints that no
method worked and returns without creating the output (lines 219-222). -/
def run_midpoint_methods (env : MidpointEnv) : Option (MidpointMethod × Nat) :=
  methods_to_try.foldl (mid_step env) none

/- ------------------------------------------------------------------ -/
/- Field adding with truncation, lines 431-441 and 90-96               -/
/- ------------------------------------------------------------------ -/

/-- src/main.py lines 431-441, one logical field name of the table: skip
when the name's uppercase form already exists; map the name to its first
10 characters (create_field_mapping, lines 90-96); skip when the
truncated name's uppercase form already exists; otherwise create the
field under the truncated name.  The state is the uppercase names of the
existing fields paired with the list of (logical name, stored short
name) creations performed. -/
def field_step (st : List String × List (String × String)) (name : String) :
    List String × List (String × String) :=
  if py_upper name ∈ st.1 then st
  else if py_upper (name.take 10) ∈ st.1 then st
  else (st.1 ++ [py_upper (name.take 10)], st.2 ++ [(name, name.take 10)])

/-- The whole field-adding loop over the table's field names. -/
def process_fields (st : List String × List (String × String)) (names : List String) :
    List String × List (String × String) :=
  names.foldl field_step st

/- ------------------------------------------------------------------ -/
/- Concrete inputs used by counterexamples and witnesses               -/
/- ------------------------------------------------------------------ -/

/-- Three inspection rows sharing the key "100 - 1": deltas -30, -25 and
30 under the code's last - prev convention. -/
def c3_rows : List TableRow :=
  [⟨some "100", some "1", some 50, some 80, 1, some "A"⟩,
   ⟨some "100", some "1", some 60, some 85, 2, some "B"⟩,
   ⟨some "100", some "1", some 90, some 60, 3, some "C"⟩]

/-- The table_dict record list corresponding to c3_rows. -/
def c3_recs : List TableRec :=
  [⟨some 50, some 80, 1, some "A"⟩,
   ⟨some 60, some 85, 2, some "B"⟩,
   ⟨some 90, some 60, 3, some "C"⟩]

/-- Two inspection rows: the first has both PCI values but a null street
name, the second is fully populated under a different key. -/
def c5_rows : List TableRow :=
  [⟨some "100", some "1", some 80, some 65, 1, none⟩,
   ⟨some "200", some "2", some 70, some 68, 2, some "B"⟩]

/-- A single record with both PCI values present but a null street name. -/
def c5_bad_rec : TableRec := ⟨some 80, some 65, 1, none⟩

/-- A single record with a null lastPCI (and a null-safe street name). -/
def c5_null_rec : TableRec := ⟨none, some 70, 2, some "B"⟩

/- ------------------------------------------------------------------ -/
/- Helper lemmas                                                       -/
/- ------------------------------------------------------------------ -/

/-- Bind of a successful Except computation, used to unfold foldlM
steps. -/
theorem except_ok_bind {ε α β : Type} (a : α) (f : α → Except ε β) :
    (Except.ok (ε := ε) a >>= f) = f a := rfl

/-- field_step only ever appends to the existing-field-name list. -/
theorem field_step_mem (st : List String × List (String × String)) (name x : String)
    (h : x ∈ st.1) : x ∈ (field_step st name).1 := by
  unfold field_step
  split_ifs <;> simp [h]

/-- field_step only ever appends to the creations list. -/
theorem field_step_mem_added (st : List String × List (String × String)) (name : String)
    (pr : String × String) (h : pr ∈ st.2) : pr ∈ (field_step st name).2 := by
  unfold field_step
  split_ifs <;> simp [h]

/-- Names in the existing-field set persist through the loop. -/
theorem process_fields_mem (names : List String) (st : List String × List (String × String))
    (x : String) (h : x ∈ st.1) : x ∈ (process_fields st names).1 := by
  induction names generalizing st with
  | nil => exact h
  | cons n ns ih => exact ih (field_step st n) (field_step_mem st n x h)

/-- Performed creations persist through the loop. -/
theorem process_fields_mem_added (names : List String)
    (st : List String × List (String × String)) (pr : String × String) (h : pr ∈ st.2) :
    pr ∈ (process_fields st names).2 := by
  induction names generalizing st with
  | nil => exact h
  | cons n ns ih => exact ih (field_step st n) (field_step_mem_added st n pr h)

/-- A name whose truncation is already present (case-insensitively) is
skipped: the state is unchanged. -/
theorem field_step_skip (st : List String × List (String × String)) (name : String)
    (h : py_upper (name.take 10) ∈ st.1) : field_step st name = st := by
  unfold field_step
  split_ifs with h1
  · rfl
  · rfl

/-- Bind of a raised Except computation: the error propagates and the
continuation never runs. -/
theorem except_error_bind {ε α β : Type} (e : ε) (f : α → Except ε β) :
    (Except.error (α := α) e >>= f) = .error e := rfl

/-- A record with a null PCI on either side only increments the
all_results count (the MISSING DATA branch, src/main.py lines 689-691). -/
theorem rec_step_missing (lower higher : Int) (shp_oid : Nat) (st : RunState) (r : TableRec)
    (h : r.last_pci = none ∨ r.prev_pci = none) :
    rec_step lower higher shp_oid st r = .ok { st with all_results := st.all_results + 1 } := by
  rcases h with h | h
  · cases hp : r.prev_pci <;> simp [rec_step, h, hp]
  · cases hl : r.last_pci <;> simp [rec_step, hl, h]

/-- A record with both PCI values and a street name updates the state as
follows: the all_results count goes up by one, the feature OID is
appended to lower_oids, higher_oids and all_flagged_oids according to
the flag predicates, and the pci_diff_dict entry for the feature is
overwritten with this record's delta and truncated street name. -/
theorem rec_step_pair (lower higher : Int) (shp_oid : Nat) (st : RunState) (r : TableRec)
    (l p : ℚ) (name : String)
    (hl : r.last_pci = some l) (hp : r.prev_pci = some p) (hn : r.street_name = some name) :
    rec_step lower higher shp_oid st r = .ok
      { all_results := st.all_results + 1
        lower_oids := st.lower_oids ++ (if flags_lower lower r then [shp_oid] else [])
        higher_oids := st.higher_oids ++
          (if flags_higher lower higher r then [shp_oid] else [])
        all_flagged_oids := st.all_flagged_oids ++
          (if flags_lower lower r || flags_higher lower higher r then [shp_oid] else [])
        pci_diff_dict := (shp_oid, pci_diff l p, short_street_name name) :: st.pci_diff_dict
        street_section_mapping := st.street_section_mapping } := by
  have hd : rec_delta r = some (pci_diff l p) := by simp [rec_delta, hl, hp]
  by_cases h1 : pci_diff l p ≤ (lower : ℚ)
  · simp [rec_step, hl, hp, hn, flags_lower, flags_higher, hd, h1]
  · by_cases h2 : pci_diff l p ≥ (higher : ℚ)
    · simp [rec_step, hl, hp, hn, flags_lower, flags_higher, hd, h1, h2]
    · simp [rec_step, hl, hp, hn, flags_lower, flags_higher, hd, h1, h2]

/-- Unfolding one successful record step of the fold. -/
theorem foldlM_rec_cons (lower higher : Int) (shp_oid : Nat) (st stB : RunState)
    (r : TableRec) (rs : List TableRec)
    (hstep : rec_step lower higher shp_oid st r = .ok stB) :
    List.foldlM (rec_step lower higher shp_oid) st (r :: rs) =
      List.foldlM (rec_step lower higher shp_oid) stB rs := by
  simp [List.foldlM, hstep, except_ok_bind]

/-- A record step that raises aborts the whole fold: later records of the
list are never processed. -/
theorem foldlM_rec_cons_error (lower higher : Int) (shp_oid : Nat) (st : RunState)
    (r : TableRec) (rs : List TableRec) (msg : String)
    (hstep : rec_step lower higher shp_oid st r = .error msg) :
    List.foldlM (rec_step lower higher shp_oid) st (r :: rs) = .error msg := by
  simp [List.foldlM, hstep, except_error_bind]

/- ------------------------------------------------------------------ -/
/- Theorems for the claims                                             -/
/- ------------------------------------------------------------------ -/

/-- C1, counterexample.  The claim asserts that with thresholds -10 and
10 a record with prevPCI = 80 and lastPCI = 65 gets delta = 15 and
classification AboveHigher, the delta being prevPCI - lastPCI.  The code
computes pci_diff = last_pci - prev_pci = -15 and flags the record BELOW
LOWER THRESHOLD. -/
theorem c1_delta_counterexample :
    pci_diff 65 80 = -15 ∧
    classify_record (-10) 10 (some 65) (some 80) = .BelowLower ∧
    pci_diff 65 80 ≠ 15 ∧
    classify_record (-10) 10 (some 65) (some 80) ≠ .AboveHigher := by
  have hc : classify_record (-10) 10 (some 65) (some 80) = .BelowLower := by
    simp only [classify_record]
    rw [if_pos (by norm_num [pci_diff])]
  exact ⟨by norm_num [pci_diff], hc, by norm_num [pci_diff], by simp [hc]⟩

/-- C1, amended.  With lower = -10 and higher = 10 the code computes
delta = lastPCI - prevPCI: the record with prevPCI = 80, lastPCI = 65
gets delta = -15 and classification BelowLower; prevPCI = 70,
lastPCI = 68 gets delta = -2 and classification Unflagged; a null
prevPCI gives MissingData. -/
theorem c1_scenario_classifications :
    pci_diff 65 80 = -15 ∧
    classify_record (-10) 10 (some 65) (some 80) = .BelowLower ∧
    pci_diff 68 70 = -2 ∧
    classify_record (-10) 10 (some 68) (some 70) = .Unflagged ∧
    classify_record (-10) 10 (some 65) none = .MissingData := by
  refine ⟨by norm_num [pci_diff], ?_, by norm_num [pci_diff], ?_, by simp [classify_record]⟩
  · simp only [classify_record]
    rw [if_pos (by norm_num [pci_diff])]
  · simp only [classify_record]
    rw [if_neg (by norm_num [pci_diff]), if_neg (by norm_num [pci_diff])]

/-- C2.  For a matched record, classification is MissingData exactly when
a PCI value is null; for a non-null pair BelowLower holds exactly when
delta <= lower (checked first, so it wins ties and simultaneous hits),
AboveHigher exactly when delta >= higher and the lower test failed, and
Unflagged otherwise; the thresholds are unconstrained (no ordering
check). -/
theorem c2_classification_iff (lower higher : Int) (last_pci prev_pci : Option ℚ) :
    (classify_record lower higher last_pci prev_pci = .MissingData ↔
      last_pci = none ∨ prev_pci = none) ∧
    (∀ l p : ℚ, last_pci = some l → prev_pci = some p →
      ((classify_record lower higher last_pci prev_pci = .BelowLower ↔
          pci_diff l p ≤ (lower : ℚ)) ∧
       (classify_record lower higher last_pci prev_pci = .AboveHigher ↔
          (pci_diff l p ≥ (higher : ℚ) ∧ ¬ pci_diff l p ≤ (lower : ℚ))) ∧
       (classify_record lower higher last_pci prev_pci = .Unflagged ↔
          (¬ pci_diff l p ≤ (lower : ℚ) ∧ ¬ pci_diff l p ≥ (higher : ℚ))))) := by
  constructor
  · cases last_pci <;> cases prev_pci <;> simp [classify_record]
    split_ifs <;> simp
  · rintro l p rfl rfl
    simp only [classify_record]
    split_ifs with h1 h2 <;> simp_all

/-- C2, witness: the iff characterization applied at thresholds -10, 10
and the concrete pair lastPCI = 65, prevPCI = 80 yields BelowLower. -/
theorem c2_classification_iff_witness :
    classify_record (-10) 10 (some 65) (some 80) = .BelowLower :=
  ((c2_classification_iff (-10) 10 (some 65) (some 80)).2 65 80 rfl rfl).1.mpr
    (by norm_num [pci_diff])

/-- C8, counterexample.  The claim says threshold values may be signed
integers or reals.  The code parses with int(), so the real-number input
2.5 raises ValueError and both thresholds fall back to the defaults. -/
theorem c8_real_threshold_counterexample :
    py_int "2.5" = none ∧ parse_thresholds "-5" "2.5" = (-10, 10) := by decide

/-- C8, amended.  Threshold inputs must parse as (optionally signed, base
10) integers; when both do, the parsed values are used, and if either
input fails to parse - including any real-number literal - the system
proceeds with the defaults -10 (lower) and 10 (higher) instead of
aborting. -/
theorem c8_threshold_parse_spec (lower_raw higher_raw : String) :
    (∀ lo hi : Int, py_int lower_raw = some lo → py_int higher_raw = some hi →
        parse_thresholds lower_raw higher_raw = (lo, hi)) ∧
    (py_int lower_raw = none ∨ py_int higher_raw = none →
        parse_thresholds lower_raw higher_raw = (-10, 10)) := by
  cases h1 : py_int lower_raw <;> cases h2 : py_int higher_raw <;>
    simp [parse_thresholds, h1, h2]

/-- C8, witness: the parse specification applied at the concrete inputs
"-7" paired with "12", and "abc" paired with "12". -/
theorem c8_threshold_parse_spec_witness :
    parse_thresholds "-7" "12" = (-7, 12) ∧ parse_thresholds "abc" "12" = (-10, 10) :=
  ⟨(c8_threshold_parse_spec "-7" "12").1 (-7) 12 (by decide) (by decide),
   (c8_threshold_parse_spec "abc" "12").2 (Or.inl (by decide))⟩

/-- C10.  When exactly one of the two threshold inputs parses as an
integer, the shared exception handler resets both thresholds to the
defaults -10 and 10, discarding the successfully parsed value. -/
theorem c10_single_parse_failure_resets_both (lower_raw higher_raw : String)
    (h : (py_int lower_raw).isSome ≠ (py_int higher_raw).isSome) :
    parse_thresholds lower_raw higher_raw = (-10, 10) := by
  cases h1 : py_int lower_raw <;> cases h2 : py_int higher_raw <;>
    rw [h1, h2] at h <;> simp_all [parse_thresholds]

/-- C10, witness: lower input "5" parses, higher input "abc" does not,
and both thresholds come back as the defaults. -/
theorem c10_single_parse_failure_resets_both_witness :
    parse_thresholds "5" "abc" = (-10, 10) :=
  c10_single_parse_failure_resets_both "5" "abc" (by decide)

/-- C7, counterexample.  The claim states the canonical key form trims
both components.  The code's f-string key applies no trimming: a street
id with a trailing blank produces a key different from the trimmed
canonical form. -/
theorem c7_trim_counterexample :
    normalize_key (some "100 ") (some "1") ≠ canonical_key_spec "100 " "1" ∧
    normalize_key (some "100 ") (some "1") = "100  - 1" ∧
    canonical_key_spec "100 " "1" = "100 - 1" := by decide

/-- C7, amended.  Key construction is pure and both input forms agree
with NO trimming: for any nullable components, the two-argument form
equals the pre-combined form used verbatim, the canonical shape being
str(streetId) ++ " - " ++ str(sectionId); null components print as the
literal "None", so two nulls give the degenerate key "None - None"
rather than an error. -/
theorem c7_normalize_key_agreement (street_id section_id : Option String) :
    normalize_key street_id section_id =
      normalize_key_combined (py_str street_id ++ " - " ++ py_str section_id) ∧
    normalize_key none none = "None - None" ∧
    normalize_key (some "100") (some "1") = "100 - 1" :=
  ⟨rfl, rfl, rfl⟩

/-- C6, counterexample.  The claim says a segment whose key is absent
from the index is still counted in the matched-records report.  Running
the loop with an empty inspection table and one segment yields an
all_results count of 0: the unmatched segment appears only in
street_section_mapping, not in the report. -/
theorem c6_unmatched_not_counted_counterexample :
    analyze_run (-10) 10 [] [("100 - 1", 0)] =
      .ok { all_results := 0, lower_oids := [], higher_oids := [], all_flagged_oids := [],
            pci_diff_dict := [], street_section_mapping := [(0, "100 - 1")] } := by
  simp [analyze_run, build_table_dict, seg_step, lookup_assoc, init_state, List.foldlM]

/-- C6, amended.  A segment whose key is absent from table_dict is a
first-class unmatched outcome: no exception, it is excluded from the
lower, higher and combined flagged OID lists AND from the all_results
matched-records report, and the only trace it leaves is its entry in
street_section_mapping. -/
theorem c6_unmatched_segment (lower higher : Int) (tbl : List (String × List TableRec))
    (st : RunState) (streetsec : String) (shp_oid : Nat)
    (h : lookup_assoc tbl streetsec = none) :
    seg_step lower higher tbl st (streetsec, shp_oid) =
      .ok { st with street_section_mapping := (shp_oid, streetsec) :: st.street_section_mapping } := by
  simp [seg_step, h]

/-- C6, witness: the unmatched-segment behaviour at an empty index and
the concrete segment key "100 - 1" with FID 0. -/
theorem c6_unmatched_segment_witness :
    seg_step (-10) 10 [] init_state ("100 - 1", 0) =
      .ok { init_state with street_section_mapping := [(0, "100 - 1")] } :=
  c6_unmatched_segment (-10) 10 [] init_state "100 - 1" 0 rfl

/-- C4, counterexample.  The claim says the parametric midpoint strategy
is preferred and the centroid FeatureToPoint conversion is only a
fallback.  In an environment where both strategies are available (the
capability returns 3 points and one geometry has positive length, so the
parametric method would produce a point), the loop still selects
feature_to_point: the source order of methods_to_try is centroid first. -/
theorem c4_centroid_first_counterexample :
    run_midpoint_methods ⟨some 3, [some 1]⟩ = some (.feature_to_point, 3) ∧
    0 < manual_count ⟨some 3, [some 1]⟩ := by
  constructor
  · rfl
  · norm_num [manual_count, List.countP_cons, List.countP_nil]

/-- C4, amended.  The midpoint deriver tries the centroid FeatureToPoint
conversion FIRST and the parametric positionAlongLine(length / 2)
computation only as a fallback, when the capability raises or produces
zero points; when the fallback produces a positive count it is selected,
and when no method produces points the deriver reports failure (none)
and skips the batch rather than silently emitting an empty result. -/
theorem c4_method_selection (env : MidpointEnv) :
    (∀ c : Nat, env.feature_to_point_count = some c → 0 < c →
        run_midpoint_methods env = some (.feature_to_point, c)) ∧
    ((env.feature_to_point_count = none ∨ env.feature_to_point_count = some 0) →
        0 < manual_count env →
        run_midpoint_methods env = some (.manual, manual_count env)) ∧
    ((env.feature_to_point_count = none ∨ env.feature_to_point_count = some 0) →
        manual_count env = 0 →
        run_midpoint_methods env = none) := by
  refine ⟨?_, ?_, ?_⟩
  · intro c hc hpos
    simp [run_midpoint_methods, methods_to_try, mid_step, hc, hpos]
  · rintro (hc | hc) hpos <;>
      simp [run_midpoint_methods, methods_to_try, mid_step, hc, hpos, Nat.pos_iff_ne_zero]
  · rintro (hc | hc) hzero <;>
      simp [run_midpoint_methods, methods_to_try, mid_step, hc, hzero]

/-- C4, witness: the selection rules applied concretely - a raising
capability with one positive-length geometry selects the manual method
with one point, and a raising capability with no usable geometry yields
none. -/
theorem c4_method_selection_witness :
    run_midpoint_methods ⟨none, [some 1]⟩ = some (.manual, manual_count ⟨none, [some 1]⟩) ∧
    run_midpoint_methods ⟨none, [none]⟩ = none := by
  constructor
  · exact (c4_method_selection ⟨none, [some 1]⟩).2.1 (Or.inl rfl)
      (by norm_num [manual_count, List.countP_cons, List.countP_nil])
  · exact (c4_method_selection ⟨none, [none]⟩).2.2 (Or.inl rfl)
      (by norm_num [manual_count, List.countP_cons, List.countP_nil])

/-- C9.  In the field-adding loop, once a field name n1 has been created
under its 10-character truncation, any later name n2 whose truncation
collides with it (case-insensitively) is skipped: processing the list
with n2 at the end equals processing it without n2 (no field added, no
error), while n1 keeps its short name in the creations list. -/
theorem c9_truncation_collision (ex : List String) (added : List (String × String))
    (n1 : String) (ys : List String) (n2 : String)
    (h1 : py_upper n1 ∉ ex) (h2 : py_upper (n1.take 10) ∉ ex)
    (h3 : py_upper (n2.take 10) = py_upper (n1.take 10)) :
    (n1, n1.take 10) ∈ (process_fields (ex, added) (n1 :: ys ++ [n2])).2 ∧
    process_fields (ex, added) (n1 :: ys ++ [n2]) = process_fields (ex, added) (n1 :: ys) := by
  have hstep : field_step (ex, added) n1 =
      (ex ++ [py_upper (n1.take 10)], added ++ [(n1, n1.take 10)]) := by
    unfold field_step
    rw [if_neg h1, if_neg h2]
  have hunf1 : process_fields (ex, added) (n1 :: ys ++ [n2]) =
      field_step (process_fields (field_step (ex, added) n1) ys) n2 := by
    simp [process_fields, List.foldl_cons, List.foldl_append]
  have hunf2 : process_fields (ex, added) (n1 :: ys) =
      process_fields (field_step (ex, added) n1) ys := by
    simp [process_fields, List.foldl_cons]
  have hmem : py_upper (n2.take 10) ∈ (process_fields (field_step (ex, added) n1) ys).1 := by
    apply process_fields_mem
    rw [hstep, h3]
    simp
  have hskip := field_step_skip _ n2 hmem
  constructor
  · rw [hunf1, hskip]
    apply process_fields_mem_added
    rw [hstep]
    simp
  · rw [hunf1, hskip, hunf2]

/-- C3, counterexample.  The claim says only the first record of a
repeated key is consumed, the segment is classified once and flagged at
most once per partition, and its output delta and street name come from
that first record.  With three records under the key "100 - 1" (deltas
-30, -25 and 30) the loop produces three all_results classifications,
appends the feature OID to lower_oids twice, and leaves the
pci_diff_dict entry of the LAST record, (30, "C"), not the first. -/
theorem c3_first_record_counterexample :
    analyze_run (-10) 10 c3_rows [("100 - 1", 0)] = .ok
      { all_results := 3
        lower_oids := [0, 0]
        higher_oids := [0]
        all_flagged_oids := [0, 0, 0]
        pci_diff_dict := [(0, 30, "C"), (0, -25, "B"), (0, -30, "A")]
        street_section_mapping := [(0, "100 - 1")] } := by
  have hA : short_street_name "A" = "A" := by decide
  have hB : short_street_name "B" = "B" := by decide
  have hC : short_street_name "C" = "C" := by decide
  simp [analyze_run, c3_rows, build_table_dict, append_assoc, to_table_rec, normalize_key,
    py_str, seg_step, lookup_assoc, rec_step, hA, hB, hC, pci_diff, init_state,
    List.foldlM, except_ok_bind, List.foldl_cons, List.foldl_nil]
  norm_num

/-- C3, amended.  For a segment whose key matches a list of records (all
of which have a street name whenever they carry a PCI pair), EVERY
record is consumed: the loop classifies once per record (all_results
grows by the list length), appends the feature OID to lower_oids,
higher_oids and the combined list once per qualifying record - so a
segment can be flagged several times per partition - and the surviving
pci_diff_dict delta and street name are those of the LAST record with
both PCI values, each such record having overwritten the entry. -/
theorem c3_every_record_consumed (lower higher : Int) (shp_oid : Nat)
    (st : RunState) (recs : List TableRec)
    (h : ∀ r ∈ recs, has_pci_pair r = true → r.street_name.isSome = true) :
    ∃ st', List.foldlM (rec_step lower higher shp_oid) st recs = .ok st' ∧
      st'.all_results = st.all_results + recs.length ∧
      st'.lower_oids = st.lower_oids ++
        List.replicate (recs.countP (flags_lower lower)) shp_oid ∧
      st'.higher_oids = st.higher_oids ++
        List.replicate (recs.countP (flags_higher lower higher)) shp_oid ∧
      st'.all_flagged_oids = st.all_flagged_oids ++
        List.replicate
          (recs.countP (fun r => flags_lower lower r || flags_higher lower higher r)) shp_oid ∧
      lookup_assoc st'.pci_diff_dict shp_oid =
        ((last_dict_entry recs).orElse (fun _ => lookup_assoc st.pci_diff_dict shp_oid)) ∧
      st'.street_section_mapping = st.street_section_mapping := by
  induction recs generalizing st with
  | nil =>
    exact ⟨st, rfl, by simp, by simp, by simp, by simp,
      by simp [last_dict_entry, Option.orElse], rfl⟩
  | cons r rs ih =>
    have hrs : ∀ x ∈ rs, has_pci_pair x = true → x.street_name.isSome = true :=
      fun x hx hpx => h x (List.mem_cons_of_mem r hx) hpx
    by_cases hpair : has_pci_pair r = true
    · have hpair' := hpair
      simp only [has_pci_pair, Bool.and_eq_true] at hpair'
      obtain ⟨l, hl⟩ := Option.isSome_iff_exists.mp hpair'.1
      obtain ⟨p, hp⟩ := Option.isSome_iff_exists.mp hpair'.2
      obtain ⟨name, hn⟩ := Option.isSome_iff_exists.mp (h r (List.mem_cons_self r rs) hpair)
      have hstep := rec_step_pair lower higher shp_oid st r l p name hl hp hn
      have hfold := foldlM_rec_cons lower higher shp_oid st _ r rs hstep
      have hd : rec_delta r = some (pci_diff l p) := by simp [rec_delta, hl, hp]
      obtain ⟨st', hrun, hres, hlow, hhigh, hflag, hdict, hmap⟩ :=
        ih { all_results := st.all_results + 1
             lower_oids := st.lower_oids ++ (if flags_lower lower r then [shp_oid] else [])
             higher_oids := st.higher_oids ++
               (if flags_higher lower higher r then [shp_oid] else [])
             all_flagged_oids := st.all_flagged_oids ++
               (if flags_lower lower r || flags_higher lower higher r then [shp_oid] else [])
             pci_diff_dict := (shp_oid, pci_diff l p, short_street_name name) :: st.pci_diff_dict
             street_section_mapping := st.street_section_mapping } hrs
      refine ⟨st', by rw [hfold]; exact hrun, ?_, ?_, ?_, ?_, ?_, ?_⟩
      · simp only at hres
        rw [hres]
        simp [Nat.add_assoc, Nat.add_comm 1 rs.length]
      · rw [hlow]
        by_cases hfl : flags_lower lower r = true <;>
          simp [hfl, List.countP_cons, List.replicate_succ, List.append_assoc]
      · rw [hhigh]
        by_cases hfh : flags_higher lower higher r = true <;>
          simp [hfh, List.countP_cons, List.replicate_succ, List.append_assoc]
      · rw [hflag]
        by_cases hfb : (flags_lower lower r || flags_higher lower higher r) = true <;>
          simp [hfb, List.countP_cons, List.replicate_succ, List.append_assoc]
      · rw [hdict]
        cases hle : last_dict_entry rs with
        | some e => simp [last_dict_entry, hle, Option.orElse]
        | none => simp [last_dict_entry, hle, hd, hn, Option.orElse, lookup_assoc]
      · rw [hmap]
    · have hmiss : r.last_pci = none ∨ r.prev_pci = none := by
        cases hL : r.last_pci <;> cases hP : r.prev_pci <;> simp_all [has_pci_pair]
      have hstep := rec_step_missing lower higher shp_oid st r hmiss
      have hfold := foldlM_rec_cons lower higher shp_oid st _ r rs hstep
      have hdelta : rec_delta r = none := by
        rcases hmiss with hm | hm
        · cases hP : r.prev_pci <;> simp [rec_delta, hm, hP]
        · cases hL : r.last_pci <;> simp [rec_delta, hL, hm]
      have hflags : flags_lower lower r = false := by simp [flags_lower, hdelta]
      have hflagsh : flags_higher lower higher r = false := by simp [flags_higher, hdelta]
      obtain ⟨st', hrun, hres, hlow, hhigh, hflag, hdict, hmap⟩ :=
        ih { st with all_results := st.all_results + 1 } hrs
      refine ⟨st', by rw [hfold]; exact hrun, ?_, ?_, ?_, ?_, ?_, ?_⟩
      · simp only at hres
        rw [hres]
        simp [Nat.add_assoc, Nat.add_comm 1 rs.length]
      · rw [hlow]
        simp [List.countP_cons, hflags]
      · rw [hhigh]
        simp [List.countP_cons, hflagsh]
      · rw [hflag]
        simp [List.countP_cons, hflags, hflagsh]
      · rw [hdict]
        cases hle : last_dict_entry rs with
        | some e => simp [last_dict_entry, hle]
        | none => simp [last_dict_entry, hle, hdelta]
      · rw [hmap]

/-- C3, witness: the record-consumption characterization applied to the
three-record list c3_recs at thresholds -10 and 10 and feature FID 0. -/
theorem c3_every_record_consumed_witness :
    ∃ st', List.foldlM (rec_step (-10) 10 0) init_state c3_recs = .ok st' ∧
      st'.all_results = init_state.all_results + c3_recs.length ∧
      st'.lower_oids = init_state.lower_oids ++
        List.replicate (c3_recs.countP (flags_lower (-10))) 0 ∧
      st'.higher_oids = init_state.higher_oids ++
        List.replicate (c3_recs.countP (flags_higher (-10) 10)) 0 ∧
      st'.all_flagged_oids = init_state.all_flagged_oids ++
        List.replicate
          (c3_recs.countP (fun r => flags_lower (-10) r || flags_higher (-10) 10 r)) 0 ∧
      lookup_assoc st'.pci_diff_dict 0 =
        ((last_dict_entry c3_recs).orElse (fun _ => lookup_assoc init_state.pci_diff_dict 0)) ∧
      st'.street_section_mapping = init_state.street_section_mapping :=
  c3_every_record_consumed (-10) 10 0 init_state c3_recs (by decide)

/-- C5, counterexample.  The claim says a record with a null non-key
field is recovered locally and all remaining records and outputs are
still processed.  A record with both PCI values and a null street name
makes line 673 raise TypeError; the only handler is the whole-function
one, so the run aborts: the second, fully valid segment is never
classified and no outputs are produced. -/
theorem c5_null_street_name_counterexample :
    analyze_run (-10) 10 c5_rows [("100 - 1", 0), ("200 - 2", 1)] = .error py_len_none_msg := by
  simp [analyze_run, c5_rows, build_table_dict, append_assoc, to_table_rec, normalize_key,
    py_str, seg_step, lookup_assoc, rec_step, init_state, List.foldlM,
    except_ok_bind, except_error_bind, List.foldl_cons, List.foldl_nil]

/-- C5, amended.  Error recovery is asymmetric: a record with a null PCI
value on either side is recovered locally as MISSING DATA (only the
all_results count grows and the remaining records are still processed),
but a record with both PCI values and a null street name raises an
uncaught TypeError at the len call, aborting the record fold - the
remaining records are NOT processed and the whole-function handler then
skips every output. -/
theorem c5_null_recovery_asymmetry (lower higher : Int) (shp_oid : Nat)
    (st : RunState) (r : TableRec) (rs : List TableRec) :
    (r.last_pci.isSome = true → r.prev_pci.isSome = true → r.street_name = none →
        List.foldlM (rec_step lower higher shp_oid) st (r :: rs) = .error py_len_none_msg) ∧
    ((r.last_pci = none ∨ r.prev_pci = none) →
        List.foldlM (rec_step lower higher shp_oid) st (r :: rs) =
          List.foldlM (rec_step lower higher shp_oid)
            { st with all_results := st.all_results + 1 } rs) := by
  constructor
  · intro hL hP hn
    obtain ⟨l, hl⟩ := Option.isSome_iff_exists.mp hL
    obtain ⟨p, hp⟩ := Option.isSome_iff_exists.mp hP
    exact foldlM_rec_cons_error lower higher shp_oid st r rs py_len_none_msg
      (by simp [rec_step, hl, hp, hn])
  · intro hmiss
    exact foldlM_rec_cons lower higher shp_oid st _ r rs
      (rec_step_missing lower higher shp_oid st r hmiss)

/-- C5, witness: the asymmetry at concrete records - the null-street-name
record with a PCI pair aborts with the TypeError, while the null-PCI
record is recovered as a MISSING DATA classification. -/
theorem c5_null_recovery_asymmetry_witness :
    List.foldlM (rec_step (-10) 10 0) init_state [c5_bad_rec] = .error py_len_none_msg ∧
    List.foldlM (rec_step (-10) 10 0) init_state [c5_null_rec] =
      List.foldlM (rec_step (-10) 10 0)
        { init_state with all_results := init_state.all_results + 1 } [] :=
  ⟨(c5_null_recovery_asymmetry (-10) 10 0 init_state c5_bad_rec []).1
      (by decide) (by decide) rfl,
   (c5_null_recovery_asymmetry (-10) 10 0 init_state c5_null_rec []).2 (Or.inl rfl)⟩

/-- C9, witness: the collision rule at the spec's scenario - the 19
character name "StreetNameExtended" is created as "StreetName" and the
later name "StreetNameAlt", which truncates to the same short name, is
skipped. -/
theorem c9_truncation_collision_witness :
    ("StreetNameExtended", "StreetNameExtended".take 10) ∈
      (process_fields ([], []) ["StreetNameExtended", "StreetNameAlt"]).2 ∧
    process_fields ([], []) ["StreetNameExtended", "StreetNameAlt"] =
      process_fields ([], []) ["StreetNameExtended"] :=
  c9_truncation_collision [] [] "StreetNameExtended" [] "StreetNameAlt"
    (by decide) (by decide) (by decide)
